import Mathlib

set_option linter.unusedVariables false

/-!
# Verification of the pitch-trajectory solver

Shallow embedding of the constrained trajectory solver implemented by the
`usePitchTrajectory` hook (src/unnamed/part_000).  Floating-point arithmetic
is idealised as real arithmetic; every definition mirrors the source
expression for expression, including the guard structure around divisions
and the fallback branches of the flight-time solver.
-/

namespace PitchVis

/-- 3-D vector in scene coordinates (Y = up, Z = towards catcher),
mirroring the `{x, y, z}` records of the source. -/
@[ext]
structure Vec3 where
  x : ℝ
  y : ℝ
  z : ℝ

/-- Componentwise dot product, as written inline in the source
(`DeltaP.x * a.x + DeltaP.y * a.y + DeltaP.z * a.z` and the squared norms). -/
noncomputable def dot (p q : Vec3) : ℝ := p.x * q.x + p.y * q.y + p.z * q.z

/-- Squared Euclidean norm, as the source's `DeltaP_sq` / `a_sq`. -/
noncomputable def normSq (p : Vec3) : ℝ := dot p p

-- Constants of the source file (src/unnamed/part_000 lines 3-21).

noncomputable def GRAVITY : ℝ := 9.81

noncomputable def FEET_TO_METERS : ℝ := 0.3048

noncomputable def MILES_TO_METERS : ℝ := 1609.344

noncomputable def MPH_TO_MPS : ℝ := MILES_TO_METERS / 3600

noncomputable def INCHES_TO_METERS : ℝ := 0.0254

noncomputable def PITCHER_PLATE_DISTANCE_FT : ℝ := 60.5

noncomputable def PITCHER_EXTENSION_FT : ℝ := 5.5

noncomputable def RELEASE_HEIGHT_FT : ℝ := 6.0

noncomputable def RELEASE_DISTANCE_M : ℝ := (PITCHER_PLATE_DISTANCE_FT - PITCHER_EXTENSION_FT) * FEET_TO_METERS

noncomputable def RELEASE_HEIGHT_M : ℝ := RELEASE_HEIGHT_FT * FEET_TO_METERS

/-- Release point `P0 = { x: 0, y: RELEASE_HEIGHT_M, z: -RELEASE_DISTANCE_M }`. -/
noncomputable def releaseP0 : Vec3 := ⟨0, RELEASE_HEIGHT_M, -RELEASE_DISTANCE_M⟩

/-- `v0_mps_sq = (velocityMPH * MPH_TO_MPS) * (velocityMPH * MPH_TO_MPS)`. -/
noncomputable def pitchV0sq (velocityMPH : ℝ) : ℝ :=
  (velocityMPH * MPH_TO_MPS) * (velocityMPH * MPH_TO_MPS)

/-- Displacement vector `DeltaP = P_target - P0`. -/
noncomputable def pitchDeltaP (targetX_m targetY_m targetZ_m : ℝ) : Vec3 :=
  ⟨targetX_m - releaseP0.x, targetY_m - releaseP0.y, targetZ_m - releaseP0.z⟩

/-- Estimated flight time:
`T_est = (DeltaP.z > 0) ? DeltaP.z / v_avg_est : 0.1` with
`v_avg_est = velocityMPH * MPH_TO_MPS`. -/
noncomputable def estimateT (velocityMPH : ℝ) (DeltaP : Vec3) : ℝ :=
  if DeltaP.z > 0 then DeltaP.z / (velocityMPH * MPH_TO_MPS) else 0.1

/-- Break accelerations (lines 83-88 of the source):
`a_magnus_x = (T_est > 0) ? 2*hb_m/T_est^2 : 0`,
`a_magnus_y_spin = (T_est > 0) ? 2*ivb_m/T_est^2 : 0`,
`a = { x: a_magnus_x, y: a_magnus_y_spin - GRAVITY, z: 0 }`. -/
noncomputable def accelVector (ivbInches hbInches T_est : ℝ) : Vec3 :=
  ⟨(if T_est > 0 then 2 * (hbInches * INCHES_TO_METERS) / (T_est * T_est) else 0),
   (if T_est > 0 then 2 * (ivbInches * INCHES_TO_METERS) / (T_est * T_est) else 0) - GRAVITY,
   0⟩

/-- `quad_A = 0.25 * a_sq`. -/
noncomputable def quadA (a : Vec3) : ℝ := 0.25 * normSq a

/-- `quad_B = -(v0_mps_sq + DeltaP_dot_a)`. -/
noncomputable def quadB (v0_sq : ℝ) (DeltaP a : Vec3) : ℝ := -(v0_sq + dot DeltaP a)

/-- `quad_C = DeltaP_sq`. -/
noncomputable def quadC (DeltaP : Vec3) : ℝ := normSq DeltaP

/-- `discriminant = quad_B * quad_B - 4 * quad_A * quad_C`. -/
noncomputable def disc (v0_sq : ℝ) (DeltaP a : Vec3) : ℝ :=
  quadB v0_sq DeltaP a * quadB v0_sq DeltaP a - 4 * quadA a * quadC DeltaP

/-- `u1 = (-quad_B + Math.sqrt(discriminant)) / (2 * quad_A)`. -/
noncomputable def uRoot1 (v0_sq : ℝ) (DeltaP a : Vec3) : ℝ :=
  (-(quadB v0_sq DeltaP a) + Real.sqrt (disc v0_sq DeltaP a)) / (2 * quadA a)

/-- `u2 = (-quad_B - Math.sqrt(discriminant)) / (2 * quad_A)`. -/
noncomputable def uRoot2 (v0_sq : ℝ) (DeltaP a : Vec3) : ℝ :=
  (-(quadB v0_sq DeltaP a) - Real.sqrt (disc v0_sq DeltaP a)) / (2 * quadA a)

/-- `T1 = (u1 > 0) ? Math.sqrt(u1) : -1`. -/
noncomputable def candT1 (v0_sq : ℝ) (DeltaP a : Vec3) : ℝ :=
  if uRoot1 v0_sq DeltaP a > 0 then Real.sqrt (uRoot1 v0_sq DeltaP a) else -1

/-- `T2 = (u2 > 0) ? Math.sqrt(u2) : -1`. -/
noncomputable def candT2 (v0_sq : ℝ) (DeltaP a : Vec3) : ℝ :=
  if uRoot2 v0_sq DeltaP a > 0 then Real.sqrt (uRoot2 v0_sq DeltaP a) else -1

/-- Flight-time solver (lines 97-128 of the source): quadratic case with
root selection, negative-discriminant fallback to `T_est`, and the linear
case when `quad_A = 0`. -/
noncomputable def solveFlightTime (v0_sq : ℝ) (DeltaP a : Vec3) (T_est : ℝ) : ℝ :=
  if disc v0_sq DeltaP a ≥ 0 ∧ quadA a ≠ 0 then
    (if candT1 v0_sq DeltaP a > 0 ∧ candT2 v0_sq DeltaP a > 0 then
      (if |candT1 v0_sq DeltaP a - T_est| < |candT2 v0_sq DeltaP a - T_est| then
        candT1 v0_sq DeltaP a
      else candT2 v0_sq DeltaP a)
    else if candT1 v0_sq DeltaP a > 0 then candT1 v0_sq DeltaP a
    else if candT2 v0_sq DeltaP a > 0 then candT2 v0_sq DeltaP a
    else T_est)
  else if disc v0_sq DeltaP a < 0 then T_est
  else if quadA a = 0 then
    (if quadB v0_sq DeltaP a ≠ 0 ∧ -(quadC DeltaP) / quadB v0_sq DeltaP a > 0 then
      Real.sqrt (-(quadC DeltaP) / quadB v0_sq DeltaP a)
    else T_est)
  else T_est

/-- Modelled from the spec: the source reports its fallback branches only
through `console.warn` side channels (lines 112-125), while the spec's
`TrajectorySolution` carries a `reachable` flag that is true exactly when
an exact flight-time root was selected and false on every fallback branch
(negative discriminant, no positive quadratic root, no valid linear root).
The branch structure below is the source's; only the Boolean output is new. -/
noncomputable def solveReachable (v0_sq : ℝ) (DeltaP a : Vec3) (T_est : ℝ) : Bool :=
  if disc v0_sq DeltaP a ≥ 0 ∧ quadA a ≠ 0 then
    decide (candT1 v0_sq DeltaP a > 0 ∨ candT2 v0_sq DeltaP a > 0)
  else if disc v0_sq DeltaP a < 0 then false
  else if quadA a = 0 then
    (if quadB v0_sq DeltaP a ≠ 0 ∧ -(quadC DeltaP) / quadB v0_sq DeltaP a > 0 then
      true
    else false)
  else false

/-- Velocity solver (lines 130-149 of the source): back-solve
`v0 = DeltaP/T - 0.5*a*T` when `flightTime > 0`, otherwise aim at the
target with the requested speed, defaulting to the primary (Z) axis when
`DeltaP` is the zero vector. -/
noncomputable def solveVelocity (v0_sq : ℝ) (DeltaP a : Vec3) (flightTime : ℝ) : Vec3 :=
  if flightTime > 0 then
    ⟨DeltaP.x / flightTime - 0.5 * a.x * flightTime,
     DeltaP.y / flightTime - 0.5 * a.y * flightTime,
     DeltaP.z / flightTime - 0.5 * a.z * flightTime⟩
  else if Real.sqrt (DeltaP.x ^ 2 + DeltaP.y ^ 2 + DeltaP.z ^ 2) > 0 then
    ⟨DeltaP.x * (Real.sqrt v0_sq / Real.sqrt (DeltaP.x ^ 2 + DeltaP.y ^ 2 + DeltaP.z ^ 2)),
     DeltaP.y * (Real.sqrt v0_sq / Real.sqrt (DeltaP.x ^ 2 + DeltaP.y ^ 2 + DeltaP.z ^ 2)),
     DeltaP.z * (Real.sqrt v0_sq / Real.sqrt (DeltaP.x ^ 2 + DeltaP.y ^ 2 + DeltaP.z ^ 2))⟩
  else ⟨0, 0, -Real.sqrt v0_sq⟩

/-- First clamp of the sampler: `if (t < 0) t = 0`. -/
noncomputable def clamp0 (t : ℝ) : ℝ := if t < 0 then 0 else t

/-- Second clamp of the sampler:
`if (t > flightTime && flightTime > 0) t = flightTime; else if (flightTime <= 0) t = 0`. -/
noncomputable def clampT (flightTime t : ℝ) : ℝ :=
  if clamp0 t > flightTime ∧ flightTime > 0 then flightTime
  else if flightTime ≤ 0 then 0
  else clamp0 t

/-- Position sampler (lines 153-164 of the source): clamp `t` and evaluate
`P0 + v0*t + 0.5*a*t*t` componentwise. -/
noncomputable def getPositionAtTime (P0 v0 a : Vec3) (flightTime t : ℝ) : Vec3 :=
  ⟨P0.x + v0.x * clampT flightTime t + 0.5 * a.x * clampT flightTime t * clampT flightTime t,
   P0.y + v0.y * clampT flightTime t + 0.5 * a.y * clampT flightTime t * clampT flightTime t,
   P0.z + v0.z * clampT flightTime t + 0.5 * a.z * clampT flightTime t * clampT flightTime t⟩

/-- `T_est` of the full pipeline. -/
noncomputable def pitchTest (velocityMPH targetX_m targetY_m targetZ_m : ℝ) : ℝ :=
  estimateT velocityMPH (pitchDeltaP targetX_m targetY_m targetZ_m)

/-- Acceleration vector of the full pipeline. -/
noncomputable def pitchAccel
    (velocityMPH ivbInches hbInches targetX_m targetY_m targetZ_m : ℝ) : Vec3 :=
  accelVector ivbInches hbInches (pitchTest velocityMPH targetX_m targetY_m targetZ_m)

/-- Flight time of the full pipeline. -/
noncomputable def pitchFlightTime
    (velocityMPH ivbInches hbInches targetX_m targetY_m targetZ_m : ℝ) : ℝ :=
  solveFlightTime (pitchV0sq velocityMPH)
    (pitchDeltaP targetX_m targetY_m targetZ_m)
    (pitchAccel velocityMPH ivbInches hbInches targetX_m targetY_m targetZ_m)
    (pitchTest velocityMPH targetX_m targetY_m targetZ_m)

/-- Initial velocity of the full pipeline. -/
noncomputable def pitchV0
    (velocityMPH ivbInches hbInches targetX_m targetY_m targetZ_m : ℝ) : Vec3 :=
  solveVelocity (pitchV0sq velocityMPH)
    (pitchDeltaP targetX_m targetY_m targetZ_m)
    (pitchAccel velocityMPH ivbInches hbInches targetX_m targetY_m targetZ_m)
    (pitchFlightTime velocityMPH ivbInches hbInches targetX_m targetY_m targetZ_m)

/-- Return value of the hook (the `PitchTrajectory` interface of the source). -/
structure PitchTrajectory where
  getPositionAtTime : ℝ → Vec3
  flightTime : ℝ
  releasePoint : Vec3
  initialVelocity : Vec3

/-- The full `usePitchTrajectory` hook: unit conversion, displacement,
time estimate, break accelerations, flight-time solve, velocity back-solve
and the clamped position sampler. -/
noncomputable def usePitchTrajectory
    (velocityMPH ivbInches hbInches targetX_m targetY_m targetZ_m : ℝ) : PitchTrajectory where
  getPositionAtTime := fun t =>
    getPositionAtTime releaseP0
      (pitchV0 velocityMPH ivbInches hbInches targetX_m targetY_m targetZ_m)
      (pitchAccel velocityMPH ivbInches hbInches targetX_m targetY_m targetZ_m)
      (pitchFlightTime velocityMPH ivbInches hbInches targetX_m targetY_m targetZ_m) t
  flightTime := pitchFlightTime velocityMPH ivbInches hbInches targetX_m targetY_m targetZ_m
  releasePoint := releaseP0
  initialVelocity := pitchV0 velocityMPH ivbInches hbInches targetX_m targetY_m targetZ_m

/-- Modelled from the spec: the `reachable` flag of the spec's
`TrajectorySolution`, absent from the source's `PitchTrajectory` record,
computed over the same pipeline state as `usePitchTrajectory`. -/
noncomputable def usePitchReachable
    (velocityMPH ivbInches hbInches targetX_m targetY_m targetZ_m : ℝ) : Bool :=
  solveReachable (pitchV0sq velocityMPH)
    (pitchDeltaP targetX_m targetY_m targetZ_m)
    (pitchAccel velocityMPH ivbInches hbInches targetX_m targetY_m targetZ_m)
    (pitchTest velocityMPH targetX_m targetY_m targetZ_m)

-- ## Basic lemmas about the sampler's clamping

lemma clamp0_of_neg {t : ℝ} (h : t < 0) : clamp0 t = 0 := if_pos h

lemma clamp0_of_nonneg {t : ℝ} (h : 0 ≤ t) : clamp0 t = t := if_neg (not_lt.mpr h)

lemma clampT_self {T : ℝ} (hT : 0 < T) : clampT T T = T := by
  unfold clampT
  rw [clamp0_of_nonneg hT.le, if_neg (by simp), if_neg (not_le.mpr hT)]

lemma clampT_zero (T : ℝ) : clampT T 0 = 0 := by
  unfold clampT
  rw [clamp0_of_nonneg le_rfl]
  rcases le_or_lt T 0 with hT | hT
  · rw [if_neg (by rintro ⟨-, h⟩; exact absurd h (not_lt.mpr hT)), if_pos hT]
  · rw [if_neg (by rintro ⟨h, -⟩; exact absurd hT (not_lt.mpr h.le)), if_neg (not_le.mpr hT)]

lemma clampT_of_gt {T t : ℝ} (h : T < t) : clampT T t = clampT T T := by
  rcases le_or_lt T 0 with hT | hT
  · unfold clampT
    rw [if_neg (by rintro ⟨-, h2⟩; exact absurd h2 (not_lt.mpr hT)), if_pos hT,
      if_neg (by rintro ⟨-, h2⟩; exact absurd h2 (not_lt.mpr hT)), if_pos hT]
  · rw [clampT_self hT]
    unfold clampT
    rw [clamp0_of_nonneg (hT.trans h).le, if_pos ⟨h, hT⟩]

lemma clampT_of_neg {T t : ℝ} (h : t < 0) : clampT T t = clampT T 0 := by
  unfold clampT
  rw [clamp0_of_neg h, clamp0_of_nonneg le_rfl]

lemma clampT_of_nonpos {T : ℝ} (hT : T ≤ 0) (t : ℝ) : clampT T t = 0 := by
  unfold clampT
  rw [if_neg (by rintro ⟨-, h2⟩; exact absurd h2 (not_lt.mpr hT)), if_pos hT]

lemma getPositionAtTime_congr (P0 v0 a : Vec3) {T t s : ℝ}
    (h : clampT T t = clampT T s) :
    getPositionAtTime P0 v0 a T t = getPositionAtTime P0 v0 a T s := by
  unfold getPositionAtTime
  rw [h]

-- ## C7: sampler clamping behaviour

/-- C7: for every solution and sample time `t`, sampling past the flight
time returns the flight-time position, sampling before release returns the
release-time position, and a non-positive flight time pins every sample to
the time-zero position. -/
theorem sampler_clamping (P0 v0 a : Vec3) (T t : ℝ) :
    (t > T → getPositionAtTime P0 v0 a T t = getPositionAtTime P0 v0 a T T) ∧
    (t < 0 → getPositionAtTime P0 v0 a T t = getPositionAtTime P0 v0 a T 0) ∧
    (T ≤ 0 → getPositionAtTime P0 v0 a T t = getPositionAtTime P0 v0 a T 0) := by
  refine ⟨fun h => ?_, fun h => ?_, fun h => ?_⟩
  · exact getPositionAtTime_congr P0 v0 a (clampT_of_gt h)
  · exact getPositionAtTime_congr P0 v0 a (clampT_of_neg h)
  · exact getPositionAtTime_congr P0 v0 a
      ((clampT_of_nonpos h t).trans (clampT_of_nonpos h 0).symm)

theorem sampler_clamping_witness :
    (3:ℝ) > 2 ∧
      getPositionAtTime ⟨0, 0, 0⟩ ⟨1, 0, 0⟩ ⟨0, 0, 0⟩ 2 3 =
        getPositionAtTime ⟨0, 0, 0⟩ ⟨1, 0, 0⟩ ⟨0, 0, 0⟩ 2 2 :=
  ⟨by norm_num, (sampler_clamping ⟨0, 0, 0⟩ ⟨1, 0, 0⟩ ⟨0, 0, 0⟩ 2 3).1 (by norm_num)⟩

-- ## C8: positionAt 0 is the release point

/-- C8: for every input, sampling the returned trajectory at time 0 yields
exactly the release point. -/
theorem position_at_zero_is_release
    (velocityMPH ivbInches hbInches targetX_m targetY_m targetZ_m : ℝ) :
    (usePitchTrajectory velocityMPH ivbInches hbInches targetX_m targetY_m
        targetZ_m).getPositionAtTime 0 =
      (usePitchTrajectory velocityMPH ivbInches hbInches targetX_m targetY_m
        targetZ_m).releasePoint := by
  show getPositionAtTime releaseP0 _ _ _ 0 = releaseP0
  unfold getPositionAtTime
  rw [clampT_zero]
  ext <;> ring

-- ## C5: time estimate and break-acceleration model

/-- C5: the estimated flight time is the primary-axis (Z) displacement over
the average speed when that displacement is positive and the fixed default
0.1 otherwise; each break-axis acceleration is `2 * break / T_est^2` when
`T_est > 0` and zero otherwise, the spin-vertical component is added to the
downward gravitational acceleration, and the primary-axis (Z) component of
the acceleration is zero. -/
theorem estimate_and_break_model (velocityMPH ivbInches hbInches T_est : ℝ)
    (DeltaP : Vec3) :
    (DeltaP.z > 0 →
      estimateT velocityMPH DeltaP = DeltaP.z / (velocityMPH * MPH_TO_MPS)) ∧
    (¬ DeltaP.z > 0 → estimateT velocityMPH DeltaP = 0.1) ∧
    ((0:ℝ) < 0.1) ∧
    (T_est > 0 → accelVector ivbInches hbInches T_est =
      ⟨2 * (hbInches * INCHES_TO_METERS) / (T_est * T_est),
       2 * (ivbInches * INCHES_TO_METERS) / (T_est * T_est) - GRAVITY, 0⟩) ∧
    (T_est ≤ 0 → accelVector ivbInches hbInches T_est = ⟨0, 0 - GRAVITY, 0⟩) := by
  refine ⟨fun h => if_pos h, fun h => if_neg h, by norm_num, fun h => ?_, fun h => ?_⟩
  · unfold accelVector
    rw [if_pos h, if_pos h]
  · unfold accelVector
    rw [if_neg (not_lt.mpr h), if_neg (not_lt.mpr h)]

theorem estimate_and_break_model_witness :
    (2:ℝ) > 0 ∧ accelVector 3 4 2 =
      ⟨2 * (4 * INCHES_TO_METERS) / (2 * 2),
       2 * (3 * INCHES_TO_METERS) / (2 * 2) - GRAVITY, 0⟩ :=
  ⟨by norm_num,
   (estimate_and_break_model 1 3 4 2 ⟨0, 0, 0⟩).2.2.2.1 (by norm_num)⟩

-- ## C6: velocity solver cases

lemma sumSq_pos_of_ne_zero {DeltaP : Vec3} (h : DeltaP ≠ ⟨0, 0, 0⟩) :
    0 < DeltaP.x ^ 2 + DeltaP.y ^ 2 + DeltaP.z ^ 2 := by
  have hcomp : DeltaP.x ≠ 0 ∨ DeltaP.y ≠ 0 ∨ DeltaP.z ≠ 0 := by
    by_contra hc
    push_neg at hc
    exact h (Vec3.ext hc.1 hc.2.1 hc.2.2)
  have hx := sq_nonneg DeltaP.x
  have hy := sq_nonneg DeltaP.y
  have hz := sq_nonneg DeltaP.z
  rcases hcomp with h1 | h1 | h1 <;>
    have := lt_of_le_of_ne (sq_nonneg _) (Ne.symm (pow_ne_zero 2 h1)) <;> linarith

/-- C6: the velocity solver back-solves `DeltaP/T - 0.5*a*T` whenever the
solved flight time is positive; for a non-positive flight time it returns
the requested speed magnitude times the unit vector along `DeltaP`, and
the requested speed along the primary (Z) axis when `DeltaP` is zero. -/
theorem velocity_solver_cases (v0_sq T : ℝ) (DeltaP a : Vec3) :
    (T > 0 → solveVelocity v0_sq DeltaP a T =
      ⟨DeltaP.x / T - 0.5 * a.x * T, DeltaP.y / T - 0.5 * a.y * T,
       DeltaP.z / T - 0.5 * a.z * T⟩) ∧
    (T ≤ 0 → DeltaP ≠ ⟨0, 0, 0⟩ → solveVelocity v0_sq DeltaP a T =
      ⟨DeltaP.x * (Real.sqrt v0_sq / Real.sqrt (DeltaP.x ^ 2 + DeltaP.y ^ 2 + DeltaP.z ^ 2)),
       DeltaP.y * (Real.sqrt v0_sq / Real.sqrt (DeltaP.x ^ 2 + DeltaP.y ^ 2 + DeltaP.z ^ 2)),
       DeltaP.z * (Real.sqrt v0_sq / Real.sqrt (DeltaP.x ^ 2 + DeltaP.y ^ 2 + DeltaP.z ^ 2))⟩) ∧
    (T ≤ 0 → DeltaP = ⟨0, 0, 0⟩ → solveVelocity v0_sq DeltaP a T =
      ⟨0, 0, -Real.sqrt v0_sq⟩) := by
  refine ⟨fun h => ?_, fun hT hne => ?_, fun hT hzero => ?_⟩
  · unfold solveVelocity
    rw [if_pos h]
  · have hmag : Real.sqrt (DeltaP.x ^ 2 + DeltaP.y ^ 2 + DeltaP.z ^ 2) > 0 :=
      Real.sqrt_pos.mpr (sumSq_pos_of_ne_zero hne)
    unfold solveVelocity
    rw [if_neg (not_lt.mpr hT), if_pos hmag]
  · subst hzero
    unfold solveVelocity
    rw [if_neg (not_lt.mpr hT)]
    norm_num

theorem velocity_solver_cases_witness :
    (2:ℝ) > 0 ∧ solveVelocity 4 ⟨1, 2, 3⟩ ⟨0, 0, 0⟩ 2 =
      ⟨(1:ℝ) / 2 - 0.5 * 0 * 2, (2:ℝ) / 2 - 0.5 * 0 * 2, (3:ℝ) / 2 - 0.5 * 0 * 2⟩ :=
  ⟨by norm_num, (velocity_solver_cases 4 2 ⟨1, 2, 3⟩ ⟨0, 0, 0⟩).1 (by norm_num)⟩

-- ## C2: root selection in the quadratic case

lemma candT1_pos_iff (v0_sq : ℝ) (DeltaP a : Vec3) :
    candT1 v0_sq DeltaP a > 0 ↔ 0 < uRoot1 v0_sq DeltaP a := by
  unfold candT1
  split_ifs with h
  · exact ⟨fun _ => h, fun _ => Real.sqrt_pos.mpr h⟩
  · exact ⟨fun hc => absurd hc (by norm_num), fun hc => absurd hc h⟩

lemma candT2_pos_iff (v0_sq : ℝ) (DeltaP a : Vec3) :
    candT2 v0_sq DeltaP a > 0 ↔ 0 < uRoot2 v0_sq DeltaP a := by
  unfold candT2
  split_ifs with h
  · exact ⟨fun _ => h, fun _ => Real.sqrt_pos.mpr h⟩
  · exact ⟨fun hc => absurd hc (by norm_num), fun hc => absurd hc h⟩

lemma solveFlightTime_quadratic (v0_sq T_est : ℝ) (DeltaP a : Vec3)
    (hA : quadA a ≠ 0) (hD : disc v0_sq DeltaP a ≥ 0) :
    solveFlightTime v0_sq DeltaP a T_est =
      (if candT1 v0_sq DeltaP a > 0 ∧ candT2 v0_sq DeltaP a > 0 then
        (if |candT1 v0_sq DeltaP a - T_est| < |candT2 v0_sq DeltaP a - T_est| then
          candT1 v0_sq DeltaP a
        else candT2 v0_sq DeltaP a)
      else if candT1 v0_sq DeltaP a > 0 then candT1 v0_sq DeltaP a
      else if candT2 v0_sq DeltaP a > 0 then candT2 v0_sq DeltaP a
      else T_est) := by
  unfold solveFlightTime
  rw [if_pos ⟨hD, hA⟩]

/-- C2 (amended): in the quadratic case a root `u` yields a candidate time
`sqrt u` only if `u` is strictly positive; with both candidates valid the
solver picks the one strictly closer to `T_est`, and on an exact tie it
picks the `-sqrt D` candidate; with exactly one valid candidate it picks
that one, and with none it falls back to `T_est`. -/
theorem flight_time_root_selection (v0_sq T_est : ℝ) (DeltaP a : Vec3)
    (hA : quadA a ≠ 0) (hD : disc v0_sq DeltaP a ≥ 0) :
    (0 < uRoot1 v0_sq DeltaP a → 0 < uRoot2 v0_sq DeltaP a →
      |Real.sqrt (uRoot1 v0_sq DeltaP a) - T_est| <
        |Real.sqrt (uRoot2 v0_sq DeltaP a) - T_est| →
      solveFlightTime v0_sq DeltaP a T_est = Real.sqrt (uRoot1 v0_sq DeltaP a)) ∧
    (0 < uRoot1 v0_sq DeltaP a → 0 < uRoot2 v0_sq DeltaP a →
      |Real.sqrt (uRoot2 v0_sq DeltaP a) - T_est| ≤
        |Real.sqrt (uRoot1 v0_sq DeltaP a) - T_est| →
      solveFlightTime v0_sq DeltaP a T_est = Real.sqrt (uRoot2 v0_sq DeltaP a)) ∧
    (0 < uRoot1 v0_sq DeltaP a → uRoot2 v0_sq DeltaP a ≤ 0 →
      solveFlightTime v0_sq DeltaP a T_est = Real.sqrt (uRoot1 v0_sq DeltaP a)) ∧
    (uRoot1 v0_sq DeltaP a ≤ 0 → 0 < uRoot2 v0_sq DeltaP a →
      solveFlightTime v0_sq DeltaP a T_est = Real.sqrt (uRoot2 v0_sq DeltaP a)) ∧
    (uRoot1 v0_sq DeltaP a ≤ 0 → uRoot2 v0_sq DeltaP a ≤ 0 →
      solveFlightTime v0_sq DeltaP a T_est = T_est) := by
  rw [solveFlightTime_quadratic v0_sq T_est DeltaP a hA hD]
  refine ⟨fun hu1 hu2 hlt => ?_, fun hu1 hu2 hle => ?_, fun hu1 hu2 => ?_,
    fun hu1 hu2 => ?_, fun hu1 hu2 => ?_⟩
  · have hc1 : candT1 v0_sq DeltaP a = Real.sqrt (uRoot1 v0_sq DeltaP a) := if_pos hu1
    have hc2 : candT2 v0_sq DeltaP a = Real.sqrt (uRoot2 v0_sq DeltaP a) := if_pos hu2
    rw [hc1, hc2, if_pos ⟨Real.sqrt_pos.mpr hu1, Real.sqrt_pos.mpr hu2⟩, if_pos hlt]
  · have hc1 : candT1 v0_sq DeltaP a = Real.sqrt (uRoot1 v0_sq DeltaP a) := if_pos hu1
    have hc2 : candT2 v0_sq DeltaP a = Real.sqrt (uRoot2 v0_sq DeltaP a) := if_pos hu2
    rw [hc1, hc2, if_pos ⟨Real.sqrt_pos.mpr hu1, Real.sqrt_pos.mpr hu2⟩,
      if_neg (not_lt.mpr hle)]
  · have hc1 : candT1 v0_sq DeltaP a = Real.sqrt (uRoot1 v0_sq DeltaP a) := if_pos hu1
    have hc2 : candT2 v0_sq DeltaP a = -1 := if_neg (not_lt.mpr hu2)
    rw [hc1, hc2, if_neg (by rintro ⟨-, hbad⟩; norm_num at hbad),
      if_pos (Real.sqrt_pos.mpr hu1)]
  · have hc1 : candT1 v0_sq DeltaP a = -1 := if_neg (not_lt.mpr hu1)
    have hc2 : candT2 v0_sq DeltaP a = Real.sqrt (uRoot2 v0_sq DeltaP a) := if_pos hu2
    rw [hc1, hc2, if_neg (by rintro ⟨hbad, -⟩; norm_num at hbad),
      if_neg (by norm_num), if_pos (Real.sqrt_pos.mpr hu2)]
  · have hc1 : candT1 v0_sq DeltaP a = -1 := if_neg (not_lt.mpr hu1)
    have hc2 : candT2 v0_sq DeltaP a = -1 := if_neg (not_lt.mpr hu2)
    rw [hc1, hc2, if_neg (by rintro ⟨hbad, -⟩; norm_num at hbad),
      if_neg (by norm_num), if_neg (by norm_num)]

-- Concrete evaluation of the quadratic data at the tie-break instance
-- v0_sq = 5, DeltaP = (0, 0, 2), a = (2, 0, 0), T_est = 3/2.

lemma sqrt_nine : Real.sqrt 9 = 3 := by
  rw [show (9:ℝ) = 3 ^ 2 by norm_num, Real.sqrt_sq (by norm_num : (0:ℝ) ≤ 3)]

lemma sqrt_four : Real.sqrt 4 = 2 := by
  rw [show (4:ℝ) = 2 ^ 2 by norm_num, Real.sqrt_sq (by norm_num : (0:ℝ) ≤ 2)]

lemma tie_quadA : quadA ⟨2, 0, 0⟩ = 1 := by
  unfold quadA normSq dot
  norm_num

lemma tie_disc : disc 5 ⟨0, 0, 2⟩ ⟨2, 0, 0⟩ = 9 := by
  unfold disc quadB quadA quadC normSq dot
  norm_num

lemma tie_u1 : uRoot1 5 ⟨0, 0, 2⟩ ⟨2, 0, 0⟩ = 4 := by
  unfold uRoot1
  rw [tie_disc, tie_quadA, sqrt_nine]
  unfold quadB dot
  norm_num

lemma tie_u2 : uRoot2 5 ⟨0, 0, 2⟩ ⟨2, 0, 0⟩ = 1 := by
  unfold uRoot2
  rw [tie_disc, tie_quadA, sqrt_nine]
  unfold quadB dot
  norm_num

/-- C2 counterexample: with `v0_sq = 5`, `DeltaP = (0,0,2)`, `a = (2,0,0)`
and `T_est = 3/2`, both roots are valid (`u1 = 4`, `u2 = 1`), the candidate
times 2 and 1 are exactly tied in distance to `T_est`, yet the solver
returns the `-sqrt D` candidate 1 rather than the `+sqrt D` candidate 2
that the claim's tie-break rule names. -/
theorem root_selection_tiebreak_counterexample :
    quadA ⟨2, 0, 0⟩ ≠ 0 ∧ disc 5 ⟨0, 0, 2⟩ ⟨2, 0, 0⟩ ≥ 0 ∧
    (0:ℝ) < uRoot1 5 ⟨0, 0, 2⟩ ⟨2, 0, 0⟩ ∧ (0:ℝ) < uRoot2 5 ⟨0, 0, 2⟩ ⟨2, 0, 0⟩ ∧
    |Real.sqrt (uRoot1 5 ⟨0, 0, 2⟩ ⟨2, 0, 0⟩) - 3 / 2| =
      |Real.sqrt (uRoot2 5 ⟨0, 0, 2⟩ ⟨2, 0, 0⟩) - 3 / 2| ∧
    solveFlightTime 5 ⟨0, 0, 2⟩ ⟨2, 0, 0⟩ (3 / 2) ≠
      Real.sqrt (uRoot1 5 ⟨0, 0, 2⟩ ⟨2, 0, 0⟩) := by
  have hA : quadA (⟨2, 0, 0⟩ : Vec3) ≠ 0 := by rw [tie_quadA]; norm_num
  have hD : disc 5 ⟨0, 0, 2⟩ ⟨2, 0, 0⟩ ≥ 0 := by rw [tie_disc]; norm_num
  have hval : solveFlightTime 5 ⟨0, 0, 2⟩ ⟨2, 0, 0⟩ (3 / 2) = 1 := by
    rw [solveFlightTime_quadratic 5 (3 / 2) ⟨0, 0, 2⟩ ⟨2, 0, 0⟩ hA hD]
    have hc1 : candT1 5 ⟨0, 0, 2⟩ ⟨2, 0, 0⟩ = 2 := by
      unfold candT1
      rw [tie_u1, if_pos (by norm_num : (0:ℝ) < 4), sqrt_four]
    have hc2 : candT2 5 ⟨0, 0, 2⟩ ⟨2, 0, 0⟩ = 1 := by
      unfold candT2
      rw [tie_u2, if_pos (by norm_num : (0:ℝ) < 1), Real.sqrt_one]
    rw [hc1, hc2, if_pos (by norm_num), if_neg (by rw [abs_of_nonneg, abs_of_neg] <;> norm_num)]
  refine ⟨hA, hD, by rw [tie_u1]; norm_num, by rw [tie_u2]; norm_num, ?_, ?_⟩
  · rw [tie_u1, tie_u2, sqrt_four, Real.sqrt_one]
    rw [abs_of_nonneg (by norm_num), abs_of_neg (by norm_num)]
    norm_num
  · rw [hval, tie_u1, sqrt_four]
    norm_num

theorem flight_time_root_selection_witness :
    quadA ⟨2, 0, 0⟩ ≠ 0 ∧ disc 5 ⟨0, 0, 2⟩ ⟨2, 0, 0⟩ ≥ 0 ∧
    solveFlightTime 5 ⟨0, 0, 2⟩ ⟨2, 0, 0⟩ (3 / 2) =
      Real.sqrt (uRoot2 5 ⟨0, 0, 2⟩ ⟨2, 0, 0⟩) := by
  have hA : quadA (⟨2, 0, 0⟩ : Vec3) ≠ 0 := by rw [tie_quadA]; norm_num
  have hD : disc 5 ⟨0, 0, 2⟩ ⟨2, 0, 0⟩ ≥ 0 := by rw [tie_disc]; norm_num
  refine ⟨hA, hD,
    (flight_time_root_selection 5 (3 / 2) ⟨0, 0, 2⟩ ⟨2, 0, 0⟩ hA hD).2.1 ?_ ?_ ?_⟩
  · rw [tie_u1]; norm_num
  · rw [tie_u2]; norm_num
  · rw [tie_u1, tie_u2, sqrt_four, Real.sqrt_one]
    rw [abs_of_neg (by norm_num), abs_of_nonneg (by norm_num)]
    norm_num

-- ## C10: a positive quadratic root preserves the requested speed

/-- C10: when the chosen flight time is the square root of a strictly
positive root `u` of the quadratic `quadA*u^2 + quadB*u + quadC = 0`, the
back-solved initial velocity `DeltaP/T - 0.5*a*T` has squared magnitude
exactly `v0_sq`, hence magnitude exactly the requested speed `v0`. -/
theorem chosen_root_preserves_speed (v0 v0_sq u : ℝ) (DeltaP a : Vec3)
    (hu : 0 < u) (hv0 : 0 ≤ v0) (hsq : v0_sq = v0 ^ 2)
    (hroot : quadA a * u ^ 2 + quadB v0_sq DeltaP a * u + quadC DeltaP = 0) :
    normSq (solveVelocity v0_sq DeltaP a (Real.sqrt u)) = v0_sq ∧
    Real.sqrt (normSq (solveVelocity v0_sq DeltaP a (Real.sqrt u))) = v0 := by
  have hTpos : 0 < Real.sqrt u := Real.sqrt_pos.mpr hu
  have hTne : Real.sqrt u ≠ 0 := ne_of_gt hTpos
  have hT2 : Real.sqrt u * Real.sqrt u = u := Real.mul_self_sqrt hu.le
  have h1 : normSq (solveVelocity v0_sq DeltaP a (Real.sqrt u)) = v0_sq := by
    unfold solveVelocity
    rw [if_pos hTpos]
    unfold normSq dot
    unfold quadA quadB quadC normSq dot at hroot
    rw [← hT2] at hroot
    field_simp
    nlinarith [hroot]
  refine ⟨h1, ?_⟩
  rw [h1, hsq, Real.sqrt_sq hv0]

theorem chosen_root_preserves_speed_witness :
    ((0:ℝ) < 4 ∧
      quadA ⟨0, 0, 0⟩ * 4 ^ 2 + quadB 1 ⟨0, 0, 2⟩ ⟨0, 0, 0⟩ * 4 + quadC ⟨0, 0, 2⟩ = 0) ∧
    normSq (solveVelocity 1 ⟨0, 0, 2⟩ ⟨0, 0, 0⟩ (Real.sqrt 4)) = 1 := by
  have hroot : quadA (⟨0, 0, 0⟩ : Vec3) * 4 ^ 2 +
      quadB 1 ⟨0, 0, 2⟩ ⟨0, 0, 0⟩ * 4 + quadC ⟨0, 0, 2⟩ = 0 := by
    unfold quadA quadB quadC normSq dot
    norm_num
  exact ⟨⟨by norm_num, hroot⟩,
    (chosen_root_preserves_speed 1 1 4 ⟨0, 0, 2⟩ ⟨0, 0, 0⟩ (by norm_num) (by norm_num)
      (by norm_num) hroot).1⟩

-- ## Positivity of the solved flight time

lemma MPH_TO_MPS_pos : 0 < MPH_TO_MPS := by
  unfold MPH_TO_MPS MILES_TO_METERS
  norm_num

lemma estimateT_pos {velocityMPH : ℝ} (hv : 0 < velocityMPH) (DeltaP : Vec3) :
    0 < estimateT velocityMPH DeltaP := by
  unfold estimateT
  split_ifs with h
  · exact div_pos h (mul_pos hv MPH_TO_MPS_pos)
  · norm_num

lemma solveFlightTime_pos (v0_sq T_est : ℝ) (DeltaP a : Vec3) (hT : 0 < T_est) :
    0 < solveFlightTime v0_sq DeltaP a T_est := by
  unfold solveFlightTime
  split_ifs <;>
    first
      | exact hT
      | assumption
      | exact (‹candT1 v0_sq DeltaP a > 0 ∧ candT2 v0_sq DeltaP a > 0›).1
      | exact (‹candT1 v0_sq DeltaP a > 0 ∧ candT2 v0_sq DeltaP a > 0›).2
      | exact Real.sqrt_pos.mpr
          (‹quadB v0_sq DeltaP a ≠ 0 ∧ -(quadC DeltaP) / quadB v0_sq DeltaP a > 0›).2

lemma pitchFlightTime_pos {velocityMPH : ℝ}
    (ivbInches hbInches targetX_m targetY_m targetZ_m : ℝ) (hv : 0 < velocityMPH) :
    0 < pitchFlightTime velocityMPH ivbInches hbInches targetX_m targetY_m targetZ_m := by
  unfold pitchFlightTime
  exact solveFlightTime_pos _ _ _ _ (estimateT_pos hv _)

-- ## C4: flight time is strictly positive for positive speed

/-- C4: for every input with positive speed, the returned flight time is
strictly positive; in the real-arithmetic model this is the content of
"finite, strictly positive, and never NaN" (every division in the
estimate, acceleration, root and linear-fallback formulas is guarded). -/
theorem flight_time_positive
    (velocityMPH ivbInches hbInches targetX_m targetY_m targetZ_m : ℝ)
    (hv : 0 < velocityMPH) :
    0 < (usePitchTrajectory velocityMPH ivbInches hbInches targetX_m targetY_m
      targetZ_m).flightTime :=
  pitchFlightTime_pos ivbInches hbInches targetX_m targetY_m targetZ_m hv

theorem flight_time_positive_witness :
    (0:ℝ) < 1 ∧ 0 < (usePitchTrajectory 1 0 0 0 0 0).flightTime :=
  ⟨by norm_num, flight_time_positive 1 0 0 0 0 0 (by norm_num)⟩

-- ## Hitting the target at the solved flight time

lemma solveVelocity_hits (v0_sq T : ℝ) (DeltaP a P0 : Vec3) (hT : 0 < T) :
    getPositionAtTime P0 (solveVelocity v0_sq DeltaP a T) a T T =
      ⟨P0.x + DeltaP.x, P0.y + DeltaP.y, P0.z + DeltaP.z⟩ := by
  have hTne : T ≠ 0 := ne_of_gt hT
  unfold getPositionAtTime solveVelocity
  rw [clampT_self hT, if_pos hT, Vec3.mk.injEq]
  refine ⟨?_, ?_, ?_⟩ <;> (field_simp; ring)

lemma pipeline_hits_target (v ivb hb tx ty tz : ℝ)
    (hT : 0 < pitchFlightTime v ivb hb tx ty tz) :
    getPositionAtTime releaseP0 (pitchV0 v ivb hb tx ty tz)
      (pitchAccel v ivb hb tx ty tz) (pitchFlightTime v ivb hb tx ty tz)
      (pitchFlightTime v ivb hb tx ty tz) = ⟨tx, ty, tz⟩ := by
  unfold pitchV0
  rw [solveVelocity_hits _ _ _ _ _ hT]
  unfold pitchDeltaP
  rw [Vec3.mk.injEq]
  refine ⟨?_, ?_, ?_⟩ <;> simp

-- ## C9: any positive solved flight time lands on the target

/-- C9: whenever the solved flight time is strictly positive — including
every fallback case where `T_est` was used — sampling the trajectory at the
flight time returns exactly the target point, because the initial velocity
is back-solved from the displacement and the chosen flight time. -/
theorem positive_flight_time_hits_target (v ivb hb tx ty tz : ℝ)
    (hT : 0 < pitchFlightTime v ivb hb tx ty tz) :
    (usePitchTrajectory v ivb hb tx ty tz).getPositionAtTime
      ((usePitchTrajectory v ivb hb tx ty tz).flightTime) = ⟨tx, ty, tz⟩ := by
  show getPositionAtTime releaseP0 (pitchV0 v ivb hb tx ty tz)
      (pitchAccel v ivb hb tx ty tz) (pitchFlightTime v ivb hb tx ty tz)
      (pitchFlightTime v ivb hb tx ty tz) = ⟨tx, ty, tz⟩
  exact pipeline_hits_target v ivb hb tx ty tz hT

theorem positive_flight_time_hits_target_witness :
    0 < pitchFlightTime 1 0 0 0 0 0 ∧
    (usePitchTrajectory 1 0 0 0 0 0).getPositionAtTime
      ((usePitchTrajectory 1 0 0 0 0 0).flightTime) = ⟨0, 0, 0⟩ :=
  ⟨pitchFlightTime_pos 0 0 0 0 0 (by norm_num),
   positive_flight_time_hits_target 1 0 0 0 0 0
     (pitchFlightTime_pos 0 0 0 0 0 (by norm_num))⟩

-- ## C1: a reachable solve lands exactly on the target

lemma solveReachable_flightTime_pos (v0_sq T_est : ℝ) (DeltaP a : Vec3)
    (h : solveReachable v0_sq DeltaP a T_est = true) :
    0 < solveFlightTime v0_sq DeltaP a T_est := by
  unfold solveReachable at h
  unfold solveFlightTime
  by_cases h1 : disc v0_sq DeltaP a ≥ 0 ∧ quadA a ≠ 0
  · rw [if_pos h1] at h ⊢
    have hor := of_decide_eq_true h
    by_cases h2 : candT1 v0_sq DeltaP a > 0 ∧ candT2 v0_sq DeltaP a > 0
    · rw [if_pos h2]
      split_ifs
      · exact h2.1
      · exact h2.2
    · rw [if_neg h2]
      by_cases hc1 : candT1 v0_sq DeltaP a > 0
      · rw [if_pos hc1]
        exact hc1
      · rcases hor with hc | hc
        · exact absurd hc hc1
        · rw [if_neg hc1, if_pos hc]
          exact hc
  · rw [if_neg h1] at h ⊢
    by_cases h6 : disc v0_sq DeltaP a < 0
    · rw [if_pos h6] at h
      exact absurd h (by simp)
    · rw [if_neg h6] at h ⊢
      by_cases h0 : quadA a = 0
      · rw [if_pos h0] at h ⊢
        by_cases h7 : quadB v0_sq DeltaP a ≠ 0 ∧
            -(quadC DeltaP) / quadB v0_sq DeltaP a > 0
        · rw [if_pos h7]
          exact Real.sqrt_pos.mpr h7.2
        · rw [if_neg h7] at h
          exact absurd h (by simp)
      · rw [if_neg h0] at h
        exact absurd h (by simp)

/-- C1: whenever the (spec-modelled) reachable flag is true — an exact
flight-time root was selected — sampling the returned trajectory at the
returned flight time yields exactly the target point in real arithmetic. -/
theorem reachable_round_trip (v ivb hb tx ty tz : ℝ)
    (h : usePitchReachable v ivb hb tx ty tz = true) :
    (usePitchTrajectory v ivb hb tx ty tz).getPositionAtTime
      ((usePitchTrajectory v ivb hb tx ty tz).flightTime) = ⟨tx, ty, tz⟩ := by
  have hT : 0 < pitchFlightTime v ivb hb tx ty tz := by
    unfold pitchFlightTime
    exact solveReachable_flightTime_pos _ _ _ _ h
  show getPositionAtTime releaseP0 (pitchV0 v ivb hb tx ty tz)
      (pitchAccel v ivb hb tx ty tz) (pitchFlightTime v ivb hb tx ty tz)
      (pitchFlightTime v ivb hb tx ty tz) = ⟨tx, ty, tz⟩
  exact pipeline_hits_target v ivb hb tx ty tz hT

-- ## Concrete pipeline evaluations
-- Shared target (0, 1.8288, 0): dead centre of the release height plane,
-- giving DeltaP = (0, 0, 16.764).

lemma eval_DeltaP : pitchDeltaP 0 1.8288 0 = ⟨0, 0, 16.764⟩ := by
  unfold pitchDeltaP releaseP0 RELEASE_HEIGHT_M RELEASE_DISTANCE_M RELEASE_HEIGHT_FT
    PITCHER_PLATE_DISTANCE_FT PITCHER_EXTENSION_FT FEET_TO_METERS
  rw [Vec3.mk.injEq]
  norm_num

-- At 37.5 mph the average speed is exactly 16.764 m/s, so T_est = 1 s.
lemma eval_Test_fast : pitchTest 37.5 0 1.8288 0 = 1 := by
  unfold pitchTest
  rw [eval_DeltaP]
  unfold estimateT MPH_TO_MPS MILES_TO_METERS
  rw [if_pos (by norm_num : ((⟨0, 0, 16.764⟩ : Vec3)).z > 0)]
  norm_num

-- An induced vertical break of 4.905/0.0254 inches makes the spin
-- acceleration cancel gravity exactly, so the acceleration vector is zero.
lemma eval_accel_fast : pitchAccel 37.5 (4.905 / 0.0254) 0 0 1.8288 0 = ⟨0, 0, 0⟩ := by
  unfold pitchAccel
  rw [eval_Test_fast]
  unfold accelVector INCHES_TO_METERS GRAVITY
  rw [if_pos (by norm_num : (1:ℝ) > 0), if_pos (by norm_num : (1:ℝ) > 0), Vec3.mk.injEq]
  norm_num

lemma eval_v0sq_fast : pitchV0sq 37.5 = 281.031696 := by
  unfold pitchV0sq MPH_TO_MPS MILES_TO_METERS
  norm_num

lemma eval_reachable_fast : usePitchReachable 37.5 (4.905 / 0.0254) 0 0 1.8288 0 = true := by
  unfold usePitchReachable
  rw [eval_DeltaP, eval_accel_fast, eval_Test_fast, eval_v0sq_fast]
  unfold solveReachable
  rw [if_neg (by rintro ⟨-, hq⟩; apply hq; unfold quadA normSq dot; norm_num)]
  rw [if_neg (by unfold disc quadB quadA quadC normSq dot; norm_num)]
  rw [if_pos (by unfold quadA normSq dot; norm_num : quadA (⟨0, 0, 0⟩ : Vec3) = 0)]
  rw [if_pos (by unfold quadB quadC normSq dot; norm_num)]

theorem reachable_round_trip_witness :
    usePitchReachable 37.5 (4.905 / 0.0254) 0 0 1.8288 0 = true ∧
    (usePitchTrajectory 37.5 (4.905 / 0.0254) 0 0 1.8288 0).getPositionAtTime
      ((usePitchTrajectory 37.5 (4.905 / 0.0254) 0 0 1.8288 0).flightTime) =
      ⟨0, 1.8288, 0⟩ :=
  ⟨eval_reachable_fast,
   reachable_round_trip 37.5 (4.905 / 0.0254) 0 0 1.8288 0 eval_reachable_fast⟩

-- ## C3: negative discriminant falls back to T_est and is unreachable

/-- C3: for every input with positive speed whose flight-time quadratic has
a negative discriminant, the solver returns the (strictly positive)
fallback estimate `T_est` as the flight time and the (spec-modelled)
reachable flag is false. -/
theorem negative_discriminant_fallback (v ivb hb tx ty tz : ℝ) (hv : 0 < v)
    (hD : disc (pitchV0sq v) (pitchDeltaP tx ty tz) (pitchAccel v ivb hb tx ty tz) < 0) :
    (usePitchTrajectory v ivb hb tx ty tz).flightTime = pitchTest v tx ty tz ∧
    0 < pitchTest v tx ty tz ∧
    usePitchReachable v ivb hb tx ty tz = false := by
  have h1 : ¬(disc (pitchV0sq v) (pitchDeltaP tx ty tz)
      (pitchAccel v ivb hb tx ty tz) ≥ 0 ∧
      quadA (pitchAccel v ivb hb tx ty tz) ≠ 0) := by
    rintro ⟨hge, -⟩
    exact absurd hge (not_le.mpr hD)
  refine ⟨?_, ?_, ?_⟩
  · show pitchFlightTime v ivb hb tx ty tz = pitchTest v tx ty tz
    unfold pitchFlightTime solveFlightTime
    rw [if_neg h1, if_pos hD]
  · unfold pitchTest
    exact estimateT_pos hv _
  · unfold usePitchReachable solveReachable
    rw [if_neg h1, if_pos hD]

-- Concrete evaluations at 1 mph towards the same target: the average
-- speed 0.44704 m/s gives T_est = 37.5 s and a negative discriminant.

lemma eval_Test_slow : pitchTest 1 0 1.8288 0 = 37.5 := by
  unfold pitchTest
  rw [eval_DeltaP]
  unfold estimateT MPH_TO_MPS MILES_TO_METERS
  rw [if_pos (by norm_num : ((⟨0, 0, 16.764⟩ : Vec3)).z > 0)]
  norm_num

lemma eval_accel_slow : pitchAccel 1 0 0 0 1.8288 0 = ⟨0, -9.81, 0⟩ := by
  unfold pitchAccel
  rw [eval_Test_slow]
  unfold accelVector INCHES_TO_METERS GRAVITY
  rw [if_pos (by norm_num : (37.5:ℝ) > 0), Vec3.mk.injEq]
  norm_num

lemma eval_v0sq_slow : pitchV0sq 1 = 0.1998447616 := by
  unfold pitchV0sq MPH_TO_MPS MILES_TO_METERS
  norm_num

lemma eval_disc_slow :
    disc (pitchV0sq 1) (pitchDeltaP 0 1.8288 0) (pitchAccel 1 0 0 0 1.8288 0) < 0 := by
  rw [eval_DeltaP, eval_accel_slow, eval_v0sq_slow]
  unfold disc quadB quadA quadC normSq dot
  norm_num

theorem negative_discriminant_fallback_witness :
    ((0:ℝ) < 1 ∧
      disc (pitchV0sq 1) (pitchDeltaP 0 1.8288 0) (pitchAccel 1 0 0 0 1.8288 0) < 0) ∧
    ((usePitchTrajectory 1 0 0 0 1.8288 0).flightTime = pitchTest 1 0 1.8288 0 ∧
      0 < pitchTest 1 0 1.8288 0 ∧
      usePitchReachable 1 0 0 0 1.8288 0 = false) :=
  ⟨⟨by norm_num, eval_disc_slow⟩,
   negative_discriminant_fallback 1 0 0 0 1.8288 0 (by norm_num) eval_disc_slow⟩

end PitchVis
